import Mathlib

/-!
Verification of the Music-Assist repository's query-layer behaviour.

The TypeScript sources are shallowly embedded: JavaScript runtime values that
flow through untyped positions (`response.data as any`) are modelled by the
`JVal` type, promises that either resolve or reject are modelled by `Except`,
and the remote cloud-function / HTTP boundary is a parameter of each service
function, so every service is a pure function of its backend's behaviour.
-/

namespace MusicAssist

/-- A citation source, `interface Source` of frontend/types.ts: a title and a url. -/
structure Source where
  title : String
  url : String
deriving DecidableEq

/-- A JavaScript runtime value as far as the chat payloads are concerned.
`obj` carries the three properties the services read (`response`, `sources`,
`conversation_id`); arrays appear in these payloads only as arrays of
well-formed sources, which `srcArr` represents. -/
inductive JVal where
  | undefined
  | nullv
  | boolv (b : Bool)
  | num (n : Int)
  | str (s : String)
  | srcArr (xs : List Source)
  | obj (response : JVal) (sources : JVal) (conversation_id : JVal)
deriving DecidableEq

/-- JavaScript truthiness of a `JVal` (`!data` is `¬ truthy data`). -/
def JVal.truthy : JVal → Bool
  | .undefined => false
  | .nullv => false
  | .boolv b => b
  | .num n => n != 0
  | .str s => s != ""
  | .srcArr _ => true
  | .obj _ _ _ => true

/-- Property access `v.response`; on a non-object it yields `undefined`. -/
def JVal.response : JVal → JVal
  | .obj r _ _ => r
  | _ => .undefined

/-- Property access `v.sources`; on a non-object it yields `undefined`. -/
def JVal.sources : JVal → JVal
  | .obj _ s _ => s
  | _ => .undefined

/-- Property access `v.conversation_id`; on a non-object it yields `undefined`. -/
def JVal.convId : JVal → JVal
  | .obj _ _ c => c
  | _ => .undefined

/-- `typeof v === 'string'`. -/
def JVal.isStr : JVal → Bool
  | .str _ => true
  | _ => false

/-- The string carried by a `JVal` known to be a string. -/
def JVal.asStr : JVal → String
  | .str s => s
  | _ => ""

/-- `Array.isArray`-style test: whether the value is a (source) array. -/
def JVal.isArray : JVal → Bool
  | .srcArr _ => true
  | _ => false

/-- The JavaScript short-circuit `a || b`. -/
def JVal.orElse (a b : JVal) : JVal :=
  if a.truthy then a else b

/-- A thrown JavaScript `Error` / a rejected promise's reason. -/
structure JsError where
  msg : String
deriving DecidableEq

/-- The message of the `Error` thrown by the response-shape validation in
frontend/services/apiService.ts. -/
def invalidResponseMsg : String := "Received an invalid response from the backend service."

/-- `enum Sender` of frontend/types.ts. -/
inductive Sender where
  | user
  | ai
deriving DecidableEq

/-- `interface Message` of frontend/types.ts. The optional `sources` property
is kept as the raw JavaScript value the service produced, since the service
does not validate it. -/
structure Message where
  id : String
  sender : Sender
  text : String
  timestamp : Nat
  sources : Option JVal
deriving DecidableEq

/-- The payload passed to the `chat` callable / posted to the chat endpoint:
`message` plus `conversation_id` (absent or null is `none`). -/
structure ChatRequest where
  message : String
  conversation_id : Option String
deriving DecidableEq

/-- The record resolved by the Firebase variant's `sendMessage`:
`text` and `conversationId` are genuine strings (they are validated),
while `sources` is passed through unvalidated. -/
structure MusicResult where
  text : String
  sources : JVal
  conversationId : String
deriving DecidableEq

/-- The cloud-function boundary: calling the `chat` function either resolves
with its (untyped) response data or rejects. -/
abbrev CloudCall := ChatRequest → Except JsError JVal

/-- The request object built inside `sendMessage` and handed to the `chat`
cloud function. -/
def sentRequest (prompt : String) (conversationId : Option String) : ChatRequest :=
  { message := prompt, conversation_id := conversationId }

/-- `MusicAssistService.sendMessage` of frontend/services/apiService.ts
(the Firebase Cloud Functions variant, the one App.tsx imports).
It calls the `chat` function; on rejection the catch block rethrows the same
error.  On resolution it validates `!data || typeof data.response !== 'string'
|| typeof data.conversation_id !== 'string'` and throws the invalid-response
error (also rethrown by the catch block) when the check fails; otherwise it
returns the mapped record with `sources: data.sources || []`.
The `history` argument is kept for context and unused, as in the source. -/
def MusicAssistService.sendMessage (call : CloudCall) (prompt : String)
    (history : List Message) (conversationId : Option String) :
    Except JsError MusicResult :=
  match call (sentRequest prompt conversationId) with
  | .error e => .error e
  | .ok data =>
      if data.truthy && data.response.isStr && data.convId.isStr then
        .ok { text := data.response.asStr,
              sources := data.sources.orElse (.srcArr []),
              conversationId := data.convId.asStr }
      else
        .error { msg := invalidResponseMsg }

/-- The fallback text App.tsx shows when the service call fails. -/
def apologyText : String :=
  "I was unable to retrieve guidance at this moment. Please ensure the sacred music archive is accessible."

/-- The React state of App.tsx that the chat logic touches: the `messages`,
`isLoading` and `statusText` hooks.  (The sidebar/scroll state is pure
presentation and not modelled; the `setTimeout` that later resets the status
text to standby is a timer outside any completed invocation.) -/
structure AppState where
  messages : List Message
  isLoading : Bool
  statusText : String
deriving DecidableEq

/-- The guard `!text.trim()`: JavaScript `trim` yields the empty string
exactly when every character of the string is whitespace. -/
def isBlank (s : String) : Bool :=
  s.toList.all fun c => c == ' ' || c == '\t' || c == '\n' || c == '\r'

/-- The user message object App.tsx appends: id and timestamp from
`Date.now()` (modelled by the parameter `now`), sender USER, the submitted
text, and no sources property. -/
def userMessage (text : String) (now : Nat) : Message :=
  { id := toString now, sender := .user, text := text, timestamp := now, sources := none }

/-- The AI message App.tsx appends on success: id `Date.now() + 1`, sender
AI, the service's answer text, and the service's sources. -/
def aiSuccessMessage (r : MusicResult) (now : Nat) : Message :=
  { id := toString (now + 1), sender := .ai, text := r.text, timestamp := now,
    sources := some r.sources }

/-- The AI message App.tsx appends in the catch block: the apology text and
no sources property. -/
def aiFailureMessage (now : Nat) : Message :=
  { id := toString (now + 1), sender := .ai, text := apologyText, timestamp := now,
    sources := none }

/-- `handleSendMessage` of frontend/App.tsx, collapsed to its completed
effect on the state.  It returns unchanged state when the text is blank;
otherwise it appends the user message, awaits
`musicAssistApi.sendMessage(text, messages)` — note that App.tsx passes no
third argument, so the `conversationId` parameter is `undefined` (`none`
here) on every call, and the returned `conversationId` is never read — and
appends either the answer message or the apology message.  Both `Date.now()`
readings are modelled by the single parameter `now`; `isLoading` is `false`
again after the `finally` block. -/
def handleSendMessage (call : CloudCall) (text : String) (now : Nat) (st : AppState) :
    AppState :=
  if isBlank text then st
  else
    match MusicAssistService.sendMessage call text st.messages none with
    | .ok r =>
        { messages := st.messages ++ [userMessage text now, aiSuccessMessage r now],
          isLoading := false, statusText := "Consultation complete" }
    | .error _ =>
        { messages := st.messages ++ [userMessage text now, aiFailureMessage now],
          isLoading := false, statusText := "Service unavailable" }

/-- `handleSubmit` of frontend/components/ChatInput.tsx, as a function of the
`input` state and the `disabled` prop.  The first component is the text passed
to `onSend` (`none` when `onSend` is not invoked), the second is the `input`
state afterwards (cleared only when the message was sent). -/
def ChatInput.handleSubmit (input : String) (disabled : Bool) : Option String × String :=
  if !(isBlank input) && !disabled then (some input, "") else (none, input)

/-! ### The Gemini variant (GeminiService) -/

/-- `web` data of a grounding chunk reported by the model. -/
structure WebInfo where
  title : Option String
  uri : String
deriving DecidableEq

/-- A grounding chunk of the response's grounding metadata; `web` may be
absent. -/
structure GroundingChunk where
  web : Option WebInfo
deriving DecidableEq

/-- `groundingMetadata` of a response candidate. -/
structure GroundingMetadata where
  groundingChunks : Option (List GroundingChunk)
deriving DecidableEq

/-- A response candidate. -/
structure Candidate where
  groundingMetadata : Option GroundingMetadata
deriving DecidableEq

/-- The generation response: the `.text` getter (absent when the model gave
no text) and the optional candidate list. -/
structure GenResponse where
  text : Option String
  candidates : Option (List Candidate)
deriving DecidableEq

/-- One entry of the `contents` array sent to the model. -/
structure GeminiContent where
  role : String
  parts : List String
deriving DecidableEq

/-- The `contents` built by GeminiService.sendMessage: the history mapped to
user/model roles followed by the current prompt as a user turn. -/
def geminiContents (prompt : String) (history : List Message) : List GeminiContent :=
  (history.map fun m =>
    { role := if m.sender = Sender.user then "user" else "model", parts := [m.text] })
    ++ [{ role := "user", parts := [prompt] }]

/-- The model boundary: `ai.models.generateContent` resolves with a response
or rejects. -/
abbrev GeminiCall := List GeminiContent → Except JsError GenResponse

/-- The fallback answer text `response.text || "..."` produces when the model
reports no text (or an empty string, which is falsy). -/
def noAnswerText : String := "I'm sorry, I couldn't generate a response."

/-- The answer text: `response.text || noAnswerText`. -/
def geminiAnswer (resp : GenResponse) : String :=
  match resp.text with
  | some s => if s == "" then noAnswerText else s
  | none => noAnswerText

/-- The optional chain
`response.candidates?.[0]?.groundingMetadata?.groundingChunks || []`. -/
def geminiChunks (resp : GenResponse) : List GroundingChunk :=
  match resp.candidates with
  | some (c :: _) =>
      match c.groundingMetadata with
      | some gm => gm.groundingChunks.getD []
      | _ => []
  | _ => []

/-- The per-chunk step of `.filter(chunk => chunk.web).map(...)`: a chunk
without `web` data is dropped; otherwise its title is
`chunk.web.title || "Official Reference"` and its url is `chunk.web.uri`. -/
def chunkSource (c : GroundingChunk) : Option Source :=
  c.web.map fun w =>
    { title := match w.title with
        | some t => if t == "" then "Official Reference" else t
        | none => "Official Reference",
      url := w.uri }

/-- The sources GeminiService extracts from the grounding metadata. -/
def geminiSources (resp : GenResponse) : List Source :=
  (geminiChunks resp).filterMap chunkSource

/-- The object returned by GeminiService.sendMessage: it has exactly the two
properties `text` and `sources`. -/
structure GeminiResult where
  text : String
  sources : List Source
deriving DecidableEq

/-- `GeminiService.sendMessage` (the direct-model variant with Google Search
grounding).  It takes a prompt and a history — no conversation id parameter
exists — and on rejection the catch block rethrows the same error. -/
def GeminiService.sendMessage (call : GeminiCall) (prompt : String)
    (history : List Message) : Except JsError GeminiResult :=
  match call (geminiContents prompt history) with
  | .error e => .error e
  | .ok resp => .ok { text := geminiAnswer resp, sources := geminiSources resp }

/-- Reading the `conversationId` property of the object GeminiService returns:
the object literal in the source has only `text` and `sources` properties, so
the access yields `undefined` (`none`). -/
def GeminiResult.conversationIdProp (_ : GeminiResult) : Option String := none

/-! ### The local FastAPI variant

The source class is also named `MusicAssistService` (it posts to
`http://localhost:8000/chat`); it is embedded here as `LocalApiService` since
Lean cannot hold two declarations of the same name. -/

/-- The `fetch` response: `ok`, `status` and the parsed JSON body. -/
structure FetchResponse where
  ok : Bool
  status : Nat
  data : JVal
deriving DecidableEq

/-- The HTTP boundary: `fetch` resolves with a response or rejects. -/
abbrev FetchCall := ChatRequest → Except JsError FetchResponse

/-- The object returned by the local variant: only `text` and `sources`,
neither of which is validated (`data.response` is passed through as-is). -/
structure LocalResult where
  text : JVal
  sources : JVal
deriving DecidableEq

/-- The friendly-fallback object the local variant's catch block returns. -/
def localFallback : LocalResult :=
  { text := .str apologyText, sources := .srcArr [] }

/-- One entry of the `chatHistory` array the local variant builds (the
request body does not actually include it). -/
structure LocalHistoryEntry where
  role : String
  content : String
deriving DecidableEq

/-- The `chatHistory` mapping of the local variant. -/
def localChatHistory (history : List Message) : List LocalHistoryEntry :=
  history.map fun m =>
    { role := if m.sender = Sender.user then "user" else "assistant", content := m.text }

/-- The local FastAPI variant's `sendMessage`.  It posts
`{ message, conversation_id: null }` — it neither accepts nor forwards a
conversation id — throws on a non-ok status, and its catch block converts
every failure into the friendly fallback, so it never rejects. -/
def LocalApiService.sendMessage (call : FetchCall) (prompt : String)
    (history : List Message) : LocalResult :=
  match call { message := prompt, conversation_id := none } with
  | .error _ => localFallback
  | .ok resp =>
      if resp.ok then
        { text := resp.data.response, sources := resp.data.sources.orElse (.srcArr []) }
      else localFallback

/-- Reading the `conversationId` property of the object the local variant
returns: the object literal has only `text` and `sources` properties, so the
access yields `undefined` (`none`). -/
def LocalResult.conversationIdProp (_ : LocalResult) : Option String := none

/-- Reading the `conversationId` property of the Firebase variant's result:
present, and a string. -/
def MusicResult.conversationIdProp (r : MusicResult) : Option String := some r.conversationId

/-! ### The lazily constructed Functions singleton (getSmartFunctions) -/

/-- A constructed Firebase Functions instance; `emulatorConnected` records
whether `connectFunctionsEmulator` was applied to it. -/
structure FunctionsInst where
  emulatorConnected : Bool
deriving DecidableEq

/-- The side effects `getSmartFunctions` can perform. -/
inductive FxEvent where
  | createInst
  | connectEmulator (host : String) (port : Nat)
deriving DecidableEq

/-- The browser environment: the hostname of `window.location` when a
`window` object exists. -/
structure BrowserEnv where
  window : Option String
deriving DecidableEq

/-- `typeof window !== "undefined" && (hostname === "localhost" || hostname
=== "127.0.0.1")`. -/
def isLocalHostname (env : BrowserEnv) : Bool :=
  match env.window with
  | some h => h == "localhost" || h == "127.0.0.1"
  | none => false

/-- `getSmartFunctions` of frontend/services/apiService.ts over the
module-level `functionsInstance` state: given the current state it returns
the instance handed to the caller, the new state, and the effects performed.
When the state already holds an instance it is returned as-is with no
effects; otherwise an instance is created and, exactly when the hostname is
local, connected to the emulator at localhost:5001. -/
def getSmartFunctions (env : BrowserEnv) (st : Option FunctionsInst) :
    FunctionsInst × Option FunctionsInst × List FxEvent :=
  match st with
  | some f => (f, some f, [])
  | none =>
      let f : FunctionsInst := { emulatorConnected := isLocalHostname env }
      (f, some f,
        .createInst :: if isLocalHostname env then [.connectEmulator "localhost" 5001] else [])

/-! ### The retriever (modelled from the spec)

The Python backend (FastAPI + FAISS) referenced by backend/README.md is not
part of the repository sources, so the retriever is modelled from the spec's
words. -/

/-- Modelled from the spec: a chunk of the index together with its similarity
score for the query under consideration (the repository contains no backend
retriever implementation, only references to it).  Scores are rationals,
standing in for the similarity values. -/
structure ScoredChunk where
  chunk_id : Nat
  score : ℚ
deriving DecidableEq

/-- Modelled from the spec: the ranking order of `search` — higher similarity
score first, ties broken by lower chunk id for determinism. -/
def retrRel (a b : ScoredChunk) : Prop :=
  b.score < a.score ∨ (a.score = b.score ∧ a.chunk_id ≤ b.chunk_id)

instance : DecidableRel retrRel := fun a b => by
  unfold retrRel; infer_instance

instance : IsTotal ScoredChunk retrRel where
  total a b := by
    unfold retrRel
    rcases lt_trichotomy a.score b.score with h | h | h
    · exact Or.inr (Or.inl h)
    · rcases Nat.le_total a.chunk_id b.chunk_id with hc | hc
      · exact Or.inl (Or.inr ⟨h, hc⟩)
      · exact Or.inr (Or.inr ⟨h.symm, hc⟩)
    · exact Or.inl (Or.inl h)

instance : IsTrans ScoredChunk retrRel where
  trans a b c hab hbc := by
    unfold retrRel at *
    rcases hab with h₁ | ⟨h₁, h₁'⟩
    · rcases hbc with h₂ | ⟨h₂, _⟩
      · exact Or.inl (h₂.trans h₁)
      · exact Or.inl (h₂ ▸ h₁)
    · rcases hbc with h₂ | ⟨h₂, h₂'⟩
      · exact Or.inl (h₁ ▸ h₂)
      · exact Or.inr ⟨h₁.trans h₂, h₁'.trans h₂'⟩

/-- Modelled from the spec: `search(query_vector, k)` returns the `k` chunks
with highest similarity score, ties broken by lower chunk id. -/
def searchIndex (index : List ScoredChunk) (k : Nat) : List ScoredChunk :=
  (index.insertionSort retrRel).take k

/-- Modelled from the spec: `retrieve(query_text, k, min_score)` — the search
results with every result scoring below `min_score` filtered out. -/
def retrieve (index : List ScoredChunk) (k : Nat) (min_score : ℚ) : List ScoredChunk :=
  (searchIndex index k).filter fun c => min_score ≤ c.score

/-! ### Concrete inputs used by witnesses and counterexamples -/

/-- A backend probe that reports in its answer text whether the incoming
request carried a conversation id, and always replies with conversation id
"c1". -/
def probeCall : CloudCall := fun req =>
  .ok (.obj
    (.str (match req.conversation_id with
      | none => "started a fresh conversation"
      | some cid => "appended to conversation " ++ cid))
    (.srcArr [])
    (.str "c1"))

/-- The grounding chunks of the C5 counterexample response: the second chunk
lacks `web` data. -/
def dropChunks : List GroundingChunk :=
  [{ web := some { title := some "General Handbook", uri := "https://gh" } },
   { web := none }]

/-- The concrete generation response for the C5 counterexample: the model's
citation step reported two grounding chunks, the second lacking `web`
data. -/
def dropResp : GenResponse :=
  { text := some "grounded answer",
    candidates := some
      [{ groundingMetadata := some { groundingChunks := some dropChunks } }] }

/-- A concrete successful local-backend HTTP reply whose body carries a
conversation id. -/
def localProbeResp : FetchResponse :=
  { ok := true, status := 200, data := .obj (.str "ans") (.srcArr []) (.str "c9") }

/-- A concrete three-chunk scored index. -/
def c6Index : List ScoredChunk :=
  [{ chunk_id := 1, score := 3 }, { chunk_id := 2, score := 5 },
   { chunk_id := 3, score := 1 }]

/-! ## Helper lemmas -/

theorem JVal.isStr_eq {v : JVal} (h : v.isStr = true) : v = .str v.asStr := by
  cases v <;> simp [JVal.isStr, JVal.asStr] at h ⊢

theorem JVal.orElse_isArray {v : JVal} (h : v.isArray = true ∨ v.truthy = false) :
    (v.orElse (.srcArr [])).isArray = true := by
  cases v <;> simp_all [JVal.isArray, JVal.truthy, JVal.orElse]

/-- Inversion for a successful `sendMessage` of the Firebase variant: the
returned record comes from a successful, validated backend reply and echoes
that reply's fields. -/
theorem sendMessage_ok_inv {call : CloudCall} {prompt : String} {history : List Message}
    {cid : Option String} {r : MusicResult}
    (h : MusicAssistService.sendMessage call prompt history cid = .ok r) :
    ∃ data, call (sentRequest prompt cid) = .ok data ∧
      data.truthy = true ∧ data.response = .str r.text ∧
      data.convId = .str r.conversationId ∧
      r.sources = data.sources.orElse (.srcArr []) := by
  unfold MusicAssistService.sendMessage at h
  split at h
  · exact absurd h (by simp)
  · rename_i data heq
    split at h
    · rename_i hv
      have hv' : data.truthy = true ∧ data.response.isStr = true ∧ data.convId.isStr = true := by
        simpa [Bool.and_eq_true, and_assoc] using hv
      obtain ⟨ht, hr, hcid⟩ := hv'
      obtain rfl := (Except.ok.injEq _ _).mp h
      exact ⟨data, heq, ht, JVal.isStr_eq hr, JVal.isStr_eq hcid, rfl⟩
    · exact absurd h (by simp)

/-! ## Claims -/

/-- C1: for every failed backend call, `MusicAssistService.sendMessage` (the
service App.tsx imports) propagates the rejection unchanged to its caller,
and every successfully returned record echoes the backend's own `response`
string — the service never fabricates a successful answer (in particular it
never makes up the apology text with empty sources) when the call failed. -/
theorem claim_C1 (call : CloudCall) (prompt : String) (history : List Message)
    (cid : Option String) :
    (∀ e, call (sentRequest prompt cid) = .error e →
      MusicAssistService.sendMessage call prompt history cid = .error e) ∧
    (∀ r, MusicAssistService.sendMessage call prompt history cid = .ok r →
      ∃ data, call (sentRequest prompt cid) = .ok data ∧ data.response = .str r.text) := by
  constructor
  · intro e he
    unfold MusicAssistService.sendMessage
    rw [he]
  · intro r hr
    obtain ⟨data, hc, _, hresp, _, _⟩ := sendMessage_ok_inv hr
    exact ⟨data, hc, hresp⟩

/-- Witness for C1 at a concrete rejecting backend. -/
theorem claim_C1_witness :
    MusicAssistService.sendMessage (fun _ => .error ⟨"backend down"⟩) "q" [] none =
      .error ⟨"backend down"⟩ :=
  (claim_C1 (fun _ => .error ⟨"backend down"⟩) "q" [] none).1 ⟨"backend down"⟩ rfl

/-- C2: for every successful, contract-shaped backend reply, `sendMessage`
returns the mapped record: `text` is the backend's `response` string,
`sources` is the backend's sources array (or the empty array when the field
is absent or null), and `conversationId` is the backend's `conversation_id`
string. -/
theorem claim_C2 (call : CloudCall) (prompt : String) (history : List Message)
    (cid : Option String) (t c : String) (sv : JVal)
    (hcall : call (sentRequest prompt cid) = .ok (.obj (.str t) sv (.str c))) :
    (∀ l, sv = .srcArr l →
      MusicAssistService.sendMessage call prompt history cid =
        .ok { text := t, sources := .srcArr l, conversationId := c }) ∧
    (sv = .undefined ∨ sv = .nullv →
      MusicAssistService.sendMessage call prompt history cid =
        .ok { text := t, sources := .srcArr [], conversationId := c }) := by
  constructor
  · rintro l rfl
    unfold MusicAssistService.sendMessage
    rw [hcall]
    simp [JVal.truthy, JVal.isStr, JVal.response, JVal.convId, JVal.asStr, JVal.sources,
      JVal.orElse]
  · rintro (rfl | rfl) <;>
      (unfold MusicAssistService.sendMessage
       rw [hcall]
       simp [JVal.truthy, JVal.isStr, JVal.response, JVal.convId, JVal.asStr, JVal.sources,
         JVal.orElse])

/-- Witness for C2 at a concrete well-shaped backend reply. -/
theorem claim_C2_witness :
    MusicAssistService.sendMessage
        (fun _ => .ok (.obj (.str "ans")
          (.srcArr [{ title := "General Handbook", url := "https://u" }]) (.str "c1")))
        "q" [] none =
      .ok { text := "ans",
            sources := .srcArr [{ title := "General Handbook", url := "https://u" }],
            conversationId := "c1" } :=
  (claim_C2
      (fun _ => .ok (.obj (.str "ans")
        (.srcArr [{ title := "General Handbook", url := "https://u" }]) (.str "c1")))
      "q" [] none "ans" "c1"
      (.srcArr [{ title := "General Handbook", url := "https://u" }]) rfl).1
    [{ title := "General Handbook", url := "https://u" }] rfl

/-- C8 counterexample: the validation never inspects `sources`, so a truthy
non-array backend `sources` value (here the string "oops") is returned as-is
inside a successful result — the returned `sources` field is not an array,
refuting the claim's final conjunct. -/
theorem claim_C8_cex :
    MusicAssistService.sendMessage
        (fun _ => .ok (.obj (.str "a") (.str "oops") (.str "c"))) "q" [] none =
      .ok { text := "a", sources := .str "oops", conversationId := "c" } ∧
    JVal.isArray (.str "oops") = false :=
  ⟨rfl, rfl⟩

/-- C8 (amended): `sendMessage` throws whenever the cloud function's data is
falsy, or its `response` is not a string, or its `conversation_id` is not a
string; every returned record therefore has a string text and a string
conversation id, and its `sources` field is the backend's `sources` value
when that value is truthy (unvalidated) and the empty array when falsy — in
particular it is an array whenever the backend's `sources` is an array,
absent, or null. -/
theorem claim_C8 (call : CloudCall) (prompt : String) (history : List Message)
    (cid : Option String) :
    (∀ data, call (sentRequest prompt cid) = .ok data →
      (data.truthy && data.response.isStr && data.convId.isStr) = false →
      MusicAssistService.sendMessage call prompt history cid =
        .error { msg := invalidResponseMsg }) ∧
    (∀ r, MusicAssistService.sendMessage call prompt history cid = .ok r →
      ∃ data, call (sentRequest prompt cid) = .ok data ∧
        data.response = .str r.text ∧ data.convId = .str r.conversationId ∧
        r.sources = data.sources.orElse (.srcArr []) ∧
        ((data.sources.isArray = true ∨ data.sources.truthy = false) →
          r.sources.isArray = true)) := by
  constructor
  · intro data hc hv
    unfold MusicAssistService.sendMessage
    rw [hc]
    exact if_neg (by simp [hv])
  · intro r hr
    obtain ⟨data, hc, _, hresp, hcid, hsrc⟩ := sendMessage_ok_inv hr
    exact ⟨data, hc, hresp, hcid, hsrc, fun h => hsrc ▸ JVal.orElse_isArray h⟩

/-- Witness for C8 at a concrete malformed backend reply (numeric
`response`), which is rejected. -/
theorem claim_C8_witness :
    MusicAssistService.sendMessage
        (fun _ => .ok (.obj (.num 3) (.srcArr []) (.str "c"))) "q" [] none =
      .error { msg := invalidResponseMsg } :=
  (claim_C8 (fun _ => .ok (.obj (.num 3) (.srcArr []) (.str "c"))) "q" [] none).1
    (.obj (.num 3) (.srcArr []) (.str "c")) rfl rfl

/-- C3 (code bug): App.tsx invokes `musicAssistApi.sendMessage(text,
messages)` with no third argument and never reads the returned
`conversationId`, so even after a completed exchange whose reply carried the
conversation id "c1", the next query is again sent with no conversation id:
against the probe backend, both AI replies read "started a fresh
conversation" instead of the second one reading "appended to conversation
c1". -/
theorem claim_C3_bug :
    ((handleSendMessage probeCall "again" 200
        (handleSendMessage probeCall "hello" 100
          { messages := [], isLoading := false, statusText := "System Standby" })).messages.map
      Message.text) =
      ["hello", "started a fresh conversation", "again", "started a fresh conversation"] :=
  rfl

/-- C9: every completed `handleSendMessage` on non-blank text appends exactly
two messages to the previous list, in order: first the user message carrying
the submitted text, then an AI message — the service answer with its sources
on success, or the apology text with no sources on failure.  The previous
messages stay in place as a prefix of the new list. -/
theorem claim_C9 (call : CloudCall) (text : String) (now : Nat) (st : AppState)
    (h : isBlank text = false) :
    (userMessage text now).sender = Sender.user ∧ (userMessage text now).text = text ∧
    (∀ r, MusicAssistService.sendMessage call text st.messages none = .ok r →
      handleSendMessage call text now st =
        { messages := st.messages ++ [userMessage text now, aiSuccessMessage r now],
          isLoading := false, statusText := "Consultation complete" } ∧
      (aiSuccessMessage r now).sender = Sender.ai ∧
      (aiSuccessMessage r now).text = r.text ∧
      (aiSuccessMessage r now).sources = some r.sources) ∧
    (∀ e, MusicAssistService.sendMessage call text st.messages none = .error e →
      handleSendMessage call text now st =
        { messages := st.messages ++ [userMessage text now, aiFailureMessage now],
          isLoading := false, statusText := "Service unavailable" } ∧
      (aiFailureMessage now).sender = Sender.ai ∧
      (aiFailureMessage now).text = apologyText ∧
      (aiFailureMessage now).sources = none) := by
  refine ⟨rfl, rfl, ?_, ?_⟩
  · intro r hr
    exact ⟨by unfold handleSendMessage; rw [h, hr]; rfl, rfl, rfl, rfl⟩
  · intro e he
    exact ⟨by unfold handleSendMessage; rw [h, he]; rfl, rfl, rfl, rfl⟩

/-- Witness for C9 at a concrete non-blank text. -/
theorem claim_C9_witness :
    isBlank "hi" = false ∧
    ((userMessage "hi" 7).sender = Sender.user ∧ (userMessage "hi" 7).text = "hi" ∧
    (∀ r, MusicAssistService.sendMessage (fun _ => .error ⟨"down"⟩) "hi"
        (AppState.mk [] false "Standby").messages none = .ok r →
      handleSendMessage (fun _ => .error ⟨"down"⟩) "hi" 7 (AppState.mk [] false "Standby") =
        { messages := (AppState.mk [] false "Standby").messages ++
            [userMessage "hi" 7, aiSuccessMessage r 7],
          isLoading := false, statusText := "Consultation complete" } ∧
      (aiSuccessMessage r 7).sender = Sender.ai ∧
      (aiSuccessMessage r 7).text = r.text ∧
      (aiSuccessMessage r 7).sources = some r.sources) ∧
    (∀ e, MusicAssistService.sendMessage (fun _ => .error ⟨"down"⟩) "hi"
        (AppState.mk [] false "Standby").messages none = .error e →
      handleSendMessage (fun _ => .error ⟨"down"⟩) "hi" 7 (AppState.mk [] false "Standby") =
        { messages := (AppState.mk [] false "Standby").messages ++
            [userMessage "hi" 7, aiFailureMessage 7],
          isLoading := false, statusText := "Service unavailable" } ∧
      (aiFailureMessage 7).sender = Sender.ai ∧
      (aiFailureMessage 7).text = apologyText ∧
      (aiFailureMessage 7).sources = none)) :=
  ⟨by decide, claim_C9 (fun _ => .error ⟨"down"⟩) "hi" 7 (AppState.mk [] false "Standby")
    (by decide)⟩

/-- C10: for a whitespace-only (or empty) input, ChatInput's `handleSubmit`
does not invoke `onSend` (and leaves the input box unchanged), and App's
`handleSendMessage` returns with the whole state — messages, loading flag and
status text — unchanged. -/
theorem claim_C10 (input text : String) (disabled : Bool) (call : CloudCall) (now : Nat)
    (st : AppState) (hin : isBlank input = true) (htx : isBlank text = true) :
    ChatInput.handleSubmit input disabled = (none, input) ∧
    handleSendMessage call text now st = st := by
  constructor
  · unfold ChatInput.handleSubmit
    rw [hin]
    simp
  · unfold handleSendMessage
    rw [htx]
    simp

/-- C4 counterexample: the claim requires every variant's result to carry a
string `conversation_id`, but the object the Gemini variant returns has no
`conversationId` property (reading it yields `undefined`), and neither does
the local FastAPI variant's — even when the local backend's reply carries a
`conversation_id`. -/
theorem claim_C4_cex :
    (GeminiService.sendMessage (fun _ => .ok { text := some "ans", candidates := none })
        "q" []).map GeminiResult.conversationIdProp = .ok none ∧
    (LocalApiService.sendMessage (fun _ => .ok localProbeResp)
        "q" []).conversationIdProp = none :=
  ⟨rfl, rfl⟩

/-- C4 (amended): the three wiring variants agree only on the
text-and-sources portion of the Query API contract.  Each returns an answer
text and a sources value, but only the Firebase variant accepts a
conversation id and returns one; the Gemini and local-FastAPI variants
neither accept nor return a conversation id (the local variant always posts
`conversation_id: null`), so they are not interchangeable behind the full
contract. -/
theorem claim_C4 (prompt : String) (history : List Message) (cid : Option String)
    (call : CloudCall) (gcall : GeminiCall) (fcall : FetchCall) :
    (∀ r, MusicAssistService.sendMessage call prompt history cid = .ok r →
      r.conversationIdProp = some r.conversationId) ∧
    (∀ resp, gcall (geminiContents prompt history) = .ok resp →
      GeminiService.sendMessage gcall prompt history =
        .ok { text := geminiAnswer resp, sources := geminiSources resp } ∧
      GeminiResult.conversationIdProp
        { text := geminiAnswer resp, sources := geminiSources resp } = none) ∧
    (∀ resp, fcall { message := prompt, conversation_id := none } = .ok resp →
      resp.ok = true →
      LocalApiService.sendMessage fcall prompt history =
        { text := resp.data.response, sources := resp.data.sources.orElse (.srcArr []) }) ∧
    (LocalApiService.sendMessage fcall prompt history).conversationIdProp = none := by
  refine ⟨fun r _ => rfl, ?_, ?_, rfl⟩
  · intro resp hresp
    refine ⟨?_, rfl⟩
    unfold GeminiService.sendMessage
    rw [hresp]
  · intro resp hresp hok
    unfold LocalApiService.sendMessage
    rw [hresp]
    exact if_pos hok

/-- Witness for C4 at concrete backends for each variant. -/
theorem claim_C4_witness :
    GeminiService.sendMessage
        (fun _ => .ok { text := some "ans", candidates := none }) "hello" [] =
      .ok { text := geminiAnswer { text := some "ans", candidates := none },
            sources := geminiSources { text := some "ans", candidates := none } } :=
  ((claim_C4 "hello" [] none probeCall
      (fun _ => .ok { text := some "ans", candidates := none })
      (fun _ => .error ⟨"down"⟩)).2.1
    { text := some "ans", candidates := none } rfl).1

/-- C5 counterexample: on a successful generation call whose grounding
metadata reports two grounding chunks, the returned sources list has only one
entry — the chunk without `web` data is dropped by the citation-extraction
step, and nothing (no retrieved-and-thresholded fallback set) is attached in
its place, refuting "sources are never dropped because the model's citation
step failed or reported nothing". -/
theorem claim_C5_cex :
    GeminiService.sendMessage (fun _ => .ok dropResp) "q" [] =
      .ok { text := "grounded answer",
            sources := [{ title := "General Handbook", url := "https://gh" }] } ∧
    (geminiChunks dropResp).length = 2 ∧ (geminiSources dropResp).length = 1 :=
  ⟨rfl, rfl, rfl⟩

/-- C5 (amended): the Gemini variant attaches as sources exactly the
model-reported grounding chunks that carry web data, mapped to title
(defaulting to "Official Reference") and url; chunks without web data are
dropped, and when the model reports no grounding chunks the answer is
returned with empty sources — no fallback source set exists in this
variant. -/
theorem claim_C5 (call : GeminiCall) (prompt : String) (history : List Message)
    (resp : GenResponse) (hcall : call (geminiContents prompt history) = .ok resp) :
    GeminiService.sendMessage call prompt history =
      .ok { text := geminiAnswer resp,
            sources := (geminiChunks resp).filterMap chunkSource } ∧
    (geminiChunks resp = [] →
      GeminiService.sendMessage call prompt history =
        .ok { text := geminiAnswer resp, sources := [] }) := by
  constructor
  · unfold GeminiService.sendMessage
    rw [hcall]
    rfl
  · intro hnil
    unfold GeminiService.sendMessage
    rw [hcall]
    simp [geminiSources, hnil]

/-- Witness for C5 at a concrete response with no grounding metadata. -/
theorem claim_C5_witness :
    GeminiService.sendMessage (fun _ => .ok { text := some "plain", candidates := none })
        "q" [] =
      .ok { text := geminiAnswer { text := some "plain", candidates := none }, sources := [] } :=
  (claim_C5 (fun _ => .ok { text := some "plain", candidates := none }) "q" []
      { text := some "plain", candidates := none } rfl).2 rfl

/-- C7: `getSmartFunctions` is a lazy process-wide singleton.  A call finding
an already-constructed instance returns that identical instance with no
effects; the first call constructs the instance exactly once, connecting to
the emulator at localhost:5001 exactly when the hostname is localhost or
127.0.0.1, and any later call returns that same instance without
re-creation. -/
theorem claim_C7 (env env' : BrowserEnv) :
    (∀ f, getSmartFunctions env (some f) = (f, some f, [])) ∧
    (getSmartFunctions env none).2.1 = some (getSmartFunctions env none).1 ∧
    getSmartFunctions env' (getSmartFunctions env none).2.1 =
      ((getSmartFunctions env none).1, (getSmartFunctions env none).2.1, []) ∧
    ((getSmartFunctions env none).2.2.count FxEvent.createInst = 1) ∧
    (FxEvent.connectEmulator "localhost" 5001 ∈ (getSmartFunctions env none).2.2 ↔
      isLocalHostname env = true) ∧
    (∀ h p, FxEvent.connectEmulator h p ∈ (getSmartFunctions env none).2.2 →
      h = "localhost" ∧ p = 5001) := by
  refine ⟨fun f => rfl, ?_⟩
  by_cases hb : isLocalHostname env = true <;>
    simp [getSmartFunctions, hb, List.count_cons]

/-- Witness for C7: a second call in a local-host environment returns the
instance constructed by the first call. -/
theorem claim_C7_witness :
    getSmartFunctions { window := some "localhost" }
        (some { emulatorConnected := true }) =
      ({ emulatorConnected := true }, some { emulatorConnected := true }, []) :=
  (claim_C7 { window := some "localhost" } { window := none }).1
    { emulatorConnected := true }

/-- C6: `retrieve` results are sorted by descending score, no two results
share a chunk id (given the index maps each chunk id to one embedding), no
result scores below `min_score`, and when no indexed chunk reaches the
threshold the result is the empty sequence. -/
theorem claim_C6 (index : List ScoredChunk) (k : Nat) (min_score : ℚ)
    (hid : (index.map ScoredChunk.chunk_id).Nodup) :
    List.Sorted (fun a b => b.score ≤ a.score) (retrieve index k min_score) ∧
    ((retrieve index k min_score).map ScoredChunk.chunk_id).Nodup ∧
    (∀ c ∈ retrieve index k min_score, min_score ≤ c.score) ∧
    ((∀ c ∈ index, c.score < min_score) → retrieve index k min_score = []) := by
  have hperm : List.Perm (index.insertionSort retrRel) index :=
    List.perm_insertionSort retrRel index
  have hsubl : List.Sublist (retrieve index k min_score) (index.insertionSort retrRel) :=
    (List.filter_sublist _).trans (List.take_sublist _ _)
  refine ⟨?_, ?_, ?_, ?_⟩
  · have hs : List.Sorted retrRel (index.insertionSort retrRel) :=
      List.sorted_insertionSort retrRel index
    have hs' : List.Sorted (fun a b => b.score ≤ a.score) (index.insertionSort retrRel) :=
      hs.imp fun hab => by
        rcases hab with h | ⟨h, _⟩
        · exact h.le
        · exact h.ge
    exact hs'.sublist hsubl
  · have hnd : ((index.insertionSort retrRel).map ScoredChunk.chunk_id).Nodup :=
      (hperm.map ScoredChunk.chunk_id).nodup_iff.mpr hid
    exact hnd.sublist (hsubl.map ScoredChunk.chunk_id)
  · intro c hc
    unfold retrieve at hc
    exact of_decide_eq_true (List.mem_filter.mp hc).2
  · intro hall
    unfold retrieve
    refine List.filter_eq_nil_iff.mpr ?_
    intro c hc
    have hcin : c ∈ index := hperm.mem_iff.mp ((List.take_sublist _ _).subset hc)
    simpa using (hall c hcin).not_le

/-- Witness for C6 on a concrete three-chunk index. -/
theorem claim_C6_witness :
    ((c6Index.map ScoredChunk.chunk_id).Nodup) ∧
    (List.Sorted (fun a b => b.score ≤ a.score) (retrieve c6Index 2 2) ∧
      ((retrieve c6Index 2 2).map ScoredChunk.chunk_id).Nodup ∧
      (∀ c ∈ retrieve c6Index 2 2, 2 ≤ c.score) ∧
      ((∀ c ∈ c6Index, c.score < 2) → retrieve c6Index 2 2 = [])) :=
  ⟨by decide, claim_C6 c6Index 2 2 (by decide)⟩

/-- Witness for C10 at concrete whitespace-only strings. -/
theorem claim_C10_witness :
    (isBlank "  \t " = true ∧ isBlank "" = true) ∧
    (ChatInput.handleSubmit "  \t " false = (none, "  \t ") ∧
      handleSendMessage probeCall "" 3 (AppState.mk [] false "Standby") =
        AppState.mk [] false "Standby") :=
  ⟨⟨by decide, by decide⟩,
    claim_C10 "  \t " "" false probeCall 3 (AppState.mk [] false "Standby")
      (by decide) (by decide)⟩

end MusicAssist
